import Mathlib

/-!
Shallow embedding of the vector-aware climate outlier detection core
(the `OutlierDetection` component of the repository): magnitude screening
by z-score, spatial neighbor search, wind-vector directional-consistency
validation, confidence scoring and descending-confidence ranking.

JavaScript numbers are idealized as real numbers.  The one place where the
source can divide by zero — the z-score `|prec - mean| / std` when the
population standard deviation is zero — is modelled explicitly with a
JavaScript-number value type (`JSNum`) recording NaN / ±Infinity outcomes,
because JavaScript comparisons against NaN are false and this is observable
in the screener's output.  `Array.prototype.sort` with the comparator
`(a, b) => b.confidence - a.confidence` is a stable descending sort
(ECMAScript 2019), modelled by `List.mergeSort`.
-/

/-- One parsed climate record (`ClimateData` in the source). -/
structure ClimateData where
  lat : ℝ
  lon : ℝ
  year : ℤ
  month : ℤ
  date : ℤ
  ws10m : ℝ
  wd10m : ℝ
  qv2m : ℝ
  prec : ℝ

/-- The detection configuration (`DetectionConfig` in the source). -/
structure DetectionConfig where
  zScoreThreshold : ℝ
  madThreshold : ℝ
  spatialRadius : ℝ
  enableSeasonalDecomposition : Bool
  enableDirectionalConsistency : Bool
  minimumNeighbors : ℕ

/-- The value of a JavaScript floating-point expression that may be NaN or
infinite: the possible outcomes of the source's unguarded division. -/
inductive JSNum where
  | nan
  | inf
  | negInf
  | fin (x : ℝ)

/-- JavaScript division `a / b` on idealized reals: for `b = 0` it yields
NaN when `a = 0` and a signed infinity otherwise. -/
noncomputable def jsDiv (a b : ℝ) : JSNum :=
  if b = 0 then (if a = 0 then .nan else if 0 < a then .inf else .negInf)
  else .fin (a / b)

/-- JavaScript comparison `x > t` for a possibly-NaN left operand:
any comparison with NaN is false. -/
noncomputable def JSNum.gtB (x : JSNum) (t : ℝ) : Bool :=
  match x with
  | .nan => false
  | .inf => true
  | .negInf => false
  | .fin v => decide (t < v)

/-- `const mean = data.reduce((sum, d) => sum + d.prec, 0) / data.length`
in `detectMagnitudeOutliers`. -/
noncomputable def precMean (data : List ClimateData) : ℝ :=
  (data.map (·.prec)).sum / data.length

/-- `const std = Math.sqrt(data.reduce((sum, d) => sum + Math.pow(d.prec - mean, 2), 0) / data.length)`
in `detectMagnitudeOutliers`: the population standard deviation. -/
noncomputable def precStd (data : List ClimateData) : ℝ :=
  Real.sqrt ((data.map (fun d => (d.prec - precMean data) ^ 2)).sum / data.length)

/-- An observation decorated by the Magnitude Screener: the spread source
point plus `index`, `zScore` and `isOutlier`. -/
structure ScoredPoint where
  point : ClimateData
  index : ℕ
  zScore : JSNum
  isOutlier : Bool

/-- `detectMagnitudeOutliers`: scores every observation with
`zScore = Math.abs(point.prec - mean) / std` (no guard on `std = 0`) and
flags it iff `zScore > config.zScoreThreshold`. -/
noncomputable def detectMagnitudeOutliers (cfg : DetectionConfig)
    (data : List ClimateData) : List ScoredPoint :=
  data.enum.map fun p =>
    let z := jsDiv |p.2.prec - precMean data| (precStd data)
    ⟨p.2, p.1, z, z.gtB cfg.zScoreThreshold⟩

/-- The filter body of `findNeighbors`: return `false` when the point's
coordinates equal the target's coordinates, otherwise test whether the
Euclidean (lat, lon) distance is at most the configured radius. -/
noncomputable def neighborPred (cfg : DetectionConfig)
    (targetPoint point : ClimateData) : Bool :=
  decide (¬(point.lat = targetPoint.lat ∧ point.lon = targetPoint.lon) ∧
    Real.sqrt ((point.lat - targetPoint.lat) ^ 2 + (point.lon - targetPoint.lon) ^ 2)
      ≤ cfg.spatialRadius)

/-- `findNeighbors`: brute-force scan of the whole dataset. -/
noncomputable def findNeighbors (cfg : DetectionConfig)
    (targetPoint : ClimateData) (allPoints : List ClimateData) : List ClimateData :=
  allPoints.filter (neighborPred cfg targetPoint)

/-- `convertWindToVector`: wind speed and direction (degrees) to Cartesian
components `u = ws·cos(wd·π/180)`, `v = ws·sin(wd·π/180)`. -/
noncomputable def convertWindToVector (ws wd : ℝ) : ℝ × ℝ :=
  (ws * Real.cos (wd * Real.pi / 180), ws * Real.sin (wd * Real.pi / 180))

/-- The `{ consistency, isCoherent }` record returned by
`calculateDirectionalConsistency`. -/
structure ConsistencyOutcome where
  consistency : ℝ
  isCoherent : Bool

/-- `calculateDirectionalConsistency`: below the minimum neighbor count
return `{0, false}`; otherwise compare the candidate's wind vector with the
neighbors' mean vector by cosine similarity, returning `{0, false}` when
either magnitude is zero, and `{c, c > 0.5}` otherwise. -/
noncomputable def calculateDirectionalConsistency (cfg : DetectionConfig)
    (targetPoint : ClimateData) (neighbors : List ClimateData) : ConsistencyOutcome :=
  if neighbors.length < cfg.minimumNeighbors then ⟨0, false⟩ else
  let targetVector := convertWindToVector targetPoint.ws10m targetPoint.wd10m
  let meanU := (neighbors.map fun n => (convertWindToVector n.ws10m n.wd10m).1).sum
      / neighbors.length
  let meanV := (neighbors.map fun n => (convertWindToVector n.ws10m n.wd10m).2).sum
      / neighbors.length
  let targetMagnitude :=
    Real.sqrt (targetVector.1 * targetVector.1 + targetVector.2 * targetVector.2)
  let neighborMagnitude := Real.sqrt (meanU * meanU + meanV * meanV)
  if targetMagnitude = 0 ∨ neighborMagnitude = 0 then ⟨0, false⟩ else
  let dotProduct := targetVector.1 * meanU + targetVector.2 * meanV
  let consistency := dotProduct / (targetMagnitude * neighborMagnitude)
  ⟨consistency, decide ((0.5 : ℝ) < consistency)⟩

/-- The validated anomaly record pushed into `validatedAnomalies`: the spread
candidate plus neighbor count, nullable directional fields, verdict and
confidence. -/
structure Anomaly where
  point : ClimateData
  index : ℕ
  zScore : JSNum
  isOutlier : Bool
  neighbors : ℕ
  directionalConsistency : Option ℝ
  isDirectionallyCoherent : Option Bool
  isTrueAnomaly : Bool
  confidence : ℝ

/-- The error surfaced by `runDetection` when there is no data to analyze. -/
inductive DetectionError where
  | emptyInput

/-- The body of the `for (const candidate of candidateAnomalies)` loop in
`runDetection`: neighbor search, then either the directional-consistency
branch or the disabled branch with fixed verdict and confidence. -/
noncomputable def validateCandidate (cfg : DetectionConfig)
    (data : List ClimateData) (candidate : ScoredPoint) : Anomaly :=
  let neighbors := findNeighbors cfg candidate.point data
  if cfg.enableDirectionalConsistency then
    let outcome := calculateDirectionalConsistency cfg candidate.point neighbors
    ⟨candidate.point, candidate.index, candidate.zScore, candidate.isOutlier,
      neighbors.length, some outcome.consistency, some outcome.isCoherent,
      outcome.isCoherent,
      if outcome.isCoherent then 0.8 + outcome.consistency * 0.2
      else 0.3 - outcome.consistency * 0.2⟩
  else
    ⟨candidate.point, candidate.index, candidate.zScore, candidate.isOutlier,
      neighbors.length, none, none, true, 0.7⟩

/-- `runDetection`: fail on empty input, otherwise screen, validate each
candidate, and stable-sort by confidence descending. -/
noncomputable def runDetection (cfg : DetectionConfig)
    (data : List ClimateData) : Except DetectionError (List Anomaly) :=
  if data.length = 0 then .error .emptyInput else
  let magnitudeOutliers := detectMagnitudeOutliers cfg data
  let candidateAnomalies := magnitudeOutliers.filter (·.isOutlier)
  let validatedAnomalies := candidateAnomalies.map (validateCandidate cfg data)
  .ok (validatedAnomalies.mergeSort fun a b => decide (b.confidence ≤ a.confidence))

/-! ### Basic facts about the JavaScript-number model -/

lemma jsDiv_of_ne_zero (a b : ℝ) (hb : b ≠ 0) : jsDiv a b = .fin (a / b) := by
  simp [jsDiv, hb]

lemma jsDiv_zero_zero : jsDiv 0 0 = .nan := by
  simp [jsDiv]

lemma JSNum.gtB_nan (t : ℝ) : JSNum.nan.gtB t = false := rfl

/-! ### Statistics of a constant dataset -/

lemma precMean_const (data : List ClimateData) (v : ℝ) (hne : data ≠ [])
    (hc : ∀ d ∈ data, d.prec = v) : precMean data = v := by
  have h1 : (data.map (·.prec)).sum = (data.map (·.prec)).length • v := by
    refine List.sum_eq_card_nsmul _ v ?_
    intro x hx
    rcases List.mem_map.1 hx with ⟨d, hd, rfl⟩
    exact hc d hd
  have hn : (data.length : ℝ) ≠ 0 := by
    simpa using fun h => hne (List.length_eq_zero.1 h)
  rw [precMean, h1, List.length_map, nsmul_eq_mul, mul_comm, mul_div_assoc,
    div_self hn, mul_one]

lemma precStd_const (data : List ClimateData) (v : ℝ) (hne : data ≠ [])
    (hc : ∀ d ∈ data, d.prec = v) : precStd data = 0 := by
  have hmean := precMean_const data v hne hc
  have h1 : (data.map (fun d => (d.prec - precMean data) ^ 2)).sum = 0 := by
    have := List.sum_eq_card_nsmul (data.map (fun d => (d.prec - precMean data) ^ 2)) 0 ?_
    · simpa using this
    · intro x hx
      rcases List.mem_map.1 hx with ⟨d, hd, rfl⟩
      rw [hmean, hc d hd]
      ring
  rw [precStd, h1, zero_div, Real.sqrt_zero]

lemma constant_scores (cfg : DetectionConfig) (data : List ClimateData) (v : ℝ)
    (hne : data ≠ []) (hc : ∀ d ∈ data, d.prec = v) :
    (detectMagnitudeOutliers cfg data).map (·.zScore) =
      List.replicate data.length JSNum.nan ∧
    (detectMagnitudeOutliers cfg data).map (·.isOutlier) =
      List.replicate data.length false := by
  have hmean := precMean_const data v hne hc
  have hstd := precStd_const data v hne hc
  have hkey : ∀ p ∈ data.enum,
      jsDiv |p.2.prec - precMean data| (precStd data) = JSNum.nan := by
    intro p hp
    have hpd : p.2 ∈ data := by
      have h := List.mem_map_of_mem Prod.snd hp
      rwa [List.enum_map_snd] at h
    rw [hmean, hstd, hc p.2 hpd, sub_self, abs_zero, jsDiv_zero_zero]
  constructor
  · have hlen : ((detectMagnitudeOutliers cfg data).map (·.zScore)).length
        = data.length := by
      simp [detectMagnitudeOutliers]
    rw [← hlen]
    refine List.eq_replicate_length.mpr ?_
    intro b hb
    rcases List.mem_map.1 hb with ⟨sp, hsp, rfl⟩
    rcases List.mem_map.1 hsp with ⟨p, hp, rfl⟩
    show jsDiv |p.2.prec - precMean data| (precStd data) = JSNum.nan
    exact hkey p hp
  · have hlen : ((detectMagnitudeOutliers cfg data).map (·.isOutlier)).length
        = data.length := by
      simp [detectMagnitudeOutliers]
    rw [← hlen]
    refine List.eq_replicate_length.mpr ?_
    intro b hb
    rcases List.mem_map.1 hb with ⟨sp, hsp, rfl⟩
    rcases List.mem_map.1 hsp with ⟨p, hp, rfl⟩
    show (jsDiv |p.2.prec - precMean data| (precStd data)).gtB cfg.zScoreThreshold
        = false
    rw [hkey p hp, JSNum.gtB_nan]

/-! ### Concrete records and configurations used as witnesses -/

/-- A record at the origin with calm wind and the given precipitation. -/
def obsP (x : ℝ) : ClimateData := ⟨0, 0, 2020, 1, 1, 0, 0, 0, x⟩

/-- A configuration with z-score threshold 1.5, radius 0.5, minimum 3
neighbors, directional-consistency checking enabled. -/
def cfgOn : DetectionConfig := ⟨1.5, 3, 0.5, true, true, 3⟩

/-- Same as `cfgOn` but with directional-consistency checking disabled. -/
def cfgOff : DetectionConfig := ⟨1.5, 3, 0.5, true, false, 3⟩

lemma obsP5_const : ∀ d ∈ ([obsP 5, obsP 5] : List ClimateData), d.prec = 5 := by
  intro d hd
  simp only [List.mem_cons, List.not_mem_nil, or_false] at hd
  rcases hd with rfl | rfl <;> rfl

/-! ### C1 -/

/-- C1 counterexample: on a dataset whose precipitation is constantly 5, the
Magnitude Screener's deviation scores are NaN (the unguarded `0 / 0`), not
the value `0` the claim promises. -/
theorem c1_zscore_is_nan_not_zero :
    (detectMagnitudeOutliers cfgOn [obsP 5, obsP 5]).map (·.zScore) =
      [JSNum.nan, JSNum.nan] ∧ JSNum.nan ≠ JSNum.fin 0 := by
  constructor
  · have h := (constant_scores cfgOn [obsP 5, obsP 5] 5 (by simp) obsP5_const).1
    simpa using h
  · intro h
    cases h

/-- C1 (amended): when every precipitation value is identical, the screener
assigns the NaN deviation score produced by the unguarded division `0 / 0`
to every observation (not the value 0); since every JavaScript comparison
with NaN is false, no observation is flagged. -/
theorem c1_constant_data_scores_nan (cfg : DetectionConfig)
    (data : List ClimateData) (v : ℝ) (hne : data ≠ [])
    (hc : ∀ d ∈ data, d.prec = v) :
    (detectMagnitudeOutliers cfg data).map (·.zScore) =
      List.replicate data.length JSNum.nan ∧
    (detectMagnitudeOutliers cfg data).map (·.isOutlier) =
      List.replicate data.length false :=
  constant_scores cfg data v hne hc

/-- C1 witness: the amended statement instantiated on a concrete constant
dataset of two records. -/
theorem c1_constant_data_scores_nan_witness :
    ([obsP 5, obsP 5] : List ClimateData) ≠ [] ∧
    ((detectMagnitudeOutliers cfgOn [obsP 5, obsP 5]).map (·.zScore) =
        List.replicate ([obsP 5, obsP 5] : List ClimateData).length JSNum.nan ∧
      (detectMagnitudeOutliers cfgOn [obsP 5, obsP 5]).map (·.isOutlier) =
        List.replicate ([obsP 5, obsP 5] : List ClimateData).length false) := by
  exact ⟨by simp, c1_constant_data_scores_nan cfgOn [obsP 5, obsP 5] 5 (by simp) obsP5_const⟩

/-! ### C2 -/

/-- C2: on an empty observation sequence, `runDetection` aborts with the
empty-input error for every configuration. -/
theorem c2_empty_input_error (cfg : DetectionConfig) :
    runDetection cfg [] = .error .emptyInput := rfl

/-! ### C6 -/

/-- C6: when every precipitation value is identical, the run produces zero
candidates and `runDetection` returns an empty result list, for any
threshold (carried inside the configuration). -/
theorem c6_constant_data_no_candidates (cfg : DetectionConfig)
    (data : List ClimateData) (v : ℝ) (hne : data ≠ [])
    (hc : ∀ d ∈ data, d.prec = v) : runDetection cfg data = .ok [] := by
  have h := (constant_scores cfg data v hne hc).2
  have hfil : (detectMagnitudeOutliers cfg data).filter (·.isOutlier) = [] := by
    rw [List.filter_eq_nil_iff]
    intro a ha
    have hmem : a.isOutlier ∈ (detectMagnitudeOutliers cfg data).map (·.isOutlier) :=
      List.mem_map_of_mem _ ha
    rw [h] at hmem
    have := List.eq_of_mem_replicate hmem
    simp [this]
  have hlen : data.length ≠ 0 := fun h0 => hne (List.length_eq_zero.1 h0)
  simp [runDetection, hlen, hfil]

/-- C6 witness: the theorem instantiated on a concrete constant dataset. -/
theorem c6_constant_data_no_candidates_witness :
    ([obsP 5, obsP 5] : List ClimateData) ≠ [] ∧
    runDetection cfgOn [obsP 5, obsP 5] = .ok [] := by
  exact ⟨by simp, c6_constant_data_no_candidates cfgOn [obsP 5, obsP 5] 5 (by simp) obsP5_const⟩

/-! ### C3 -/

/-- C3 counterexample: a second record sharing the target's exact
coordinates (distance 0, well within the radius) is a distinct record, yet
`findNeighbors` returns it in no neighbor list — the coordinate-equality
test excludes duplicate-coordinate records, not merely the target
instance. -/
theorem c3_duplicate_coordinates_excluded :
    findNeighbors cfgOn (obsP 1) [obsP 1, obsP 2] = [] ∧
    obsP 2 ≠ obsP 1 ∧
    Real.sqrt (((obsP 2).lat - (obsP 1).lat) ^ 2 + ((obsP 2).lon - (obsP 1).lon) ^ 2)
      ≤ cfgOn.spatialRadius := by
  refine ⟨?_, ?_, ?_⟩
  · have h1 : neighborPred cfgOn (obsP 1) (obsP 1) = false := by
      simp [neighborPred, obsP, decide_eq_false_iff_not]
    have h2 : neighborPred cfgOn (obsP 1) (obsP 2) = false := by
      simp [neighborPred, obsP, decide_eq_false_iff_not]
    simp [findNeighbors, h1, h2]
  · intro h
    have hp := congrArg ClimateData.prec h
    simp only [obsP] at hp
    norm_num at hp
  · simp only [obsP, cfgOn]
    norm_num [Real.sqrt_zero]

/-- C3 (amended): the neighbor query returns exactly the observations of the
dataset whose (lat, lon) pair differs from the target's and whose Euclidean
distance is at most the radius; every record sharing the target's exact
coordinates is excluded, including duplicate-coordinate records at other
indices. -/
theorem c3_neighbor_membership (cfg : DetectionConfig) (t q : ClimateData)
    (data : List ClimateData) :
    q ∈ findNeighbors cfg t data ↔
      q ∈ data ∧ ¬(q.lat = t.lat ∧ q.lon = t.lon) ∧
        Real.sqrt ((q.lat - t.lat) ^ 2 + (q.lon - t.lon) ^ 2) ≤ cfg.spatialRadius := by
  simp only [findNeighbors, List.mem_filter, neighborPred, decide_eq_true_eq]

/-! ### C8 -/

/-- C8: with enough neighbors, a zero candidate-vector magnitude or zero
mean-neighbor-vector magnitude makes `calculateDirectionalConsistency`
return consistency 0 and coherent false by the explicit guard, before the
cosine-similarity division is reached. -/
theorem c8_zero_magnitude_guard (cfg : DetectionConfig) (t : ClimateData)
    (ns : List ClimateData) (hmin : cfg.minimumNeighbors ≤ ns.length)
    (hzero :
      Real.sqrt ((convertWindToVector t.ws10m t.wd10m).1 *
            (convertWindToVector t.ws10m t.wd10m).1 +
          (convertWindToVector t.ws10m t.wd10m).2 *
            (convertWindToVector t.ws10m t.wd10m).2) = 0 ∨
      Real.sqrt
        (((ns.map fun n => (convertWindToVector n.ws10m n.wd10m).1).sum / ns.length) *
            ((ns.map fun n => (convertWindToVector n.ws10m n.wd10m).1).sum / ns.length) +
          ((ns.map fun n => (convertWindToVector n.ws10m n.wd10m).2).sum / ns.length) *
            ((ns.map fun n => (convertWindToVector n.ws10m n.wd10m).2).sum / ns.length)) = 0) :
    calculateDirectionalConsistency cfg t ns = ⟨0, false⟩ := by
  simp only [calculateDirectionalConsistency]
  rw [if_neg (not_lt.2 hmin), if_pos hzero]

/-- C8 witness: a calm-wind candidate (wind speed 0) with three neighbors
meets the zero-magnitude guard. -/
theorem c8_zero_magnitude_guard_witness :
    cfgOn.minimumNeighbors ≤ ([obsP 1, obsP 2, obsP 3] : List ClimateData).length ∧
    calculateDirectionalConsistency cfgOn (obsP 0) [obsP 1, obsP 2, obsP 3] = ⟨0, false⟩ := by
  refine ⟨by simp [cfgOn], c8_zero_magnitude_guard cfgOn (obsP 0) [obsP 1, obsP 2, obsP 3]
    (by simp [cfgOn]) ?_⟩
  left
  simp [convertWindToVector, obsP]

/-! ### C9 -/

lemma gtB_mono (z : JSNum) (t1 t2 : ℝ) (h : t1 ≤ t2) (h2 : z.gtB t2 = true) :
    z.gtB t1 = true := by
  cases z with
  | nan => simp [JSNum.gtB] at h2
  | inf => rfl
  | negInf => simp [JSNum.gtB] at h2
  | fin v =>
    simp only [JSNum.gtB, decide_eq_true_eq] at h2 ⊢
    exact lt_of_le_of_lt h h2

/-- C9: raising the z-score threshold never increases the Magnitude
Screener's candidate count, and raising the spatial radius never shrinks a
target's neighbor list (it stays a sublist, so its length never
decreases). -/
theorem c9_monotonicity (cfg : DetectionConfig) (data : List ClimateData)
    (t1 t2 r1 r2 : ℝ) (target : ClimateData) :
    (t1 ≤ t2 →
      ((detectMagnitudeOutliers { cfg with zScoreThreshold := t2 } data).filter
          (·.isOutlier)).length ≤
        ((detectMagnitudeOutliers { cfg with zScoreThreshold := t1 } data).filter
          (·.isOutlier)).length) ∧
    (r1 ≤ r2 →
      (findNeighbors { cfg with spatialRadius := r1 } target data).Sublist
        (findNeighbors { cfg with spatialRadius := r2 } target data) ∧
      (findNeighbors { cfg with spatialRadius := r1 } target data).length ≤
        (findNeighbors { cfg with spatialRadius := r2 } target data).length) := by
  constructor
  · intro ht
    rw [← List.countP_eq_length_filter, ← List.countP_eq_length_filter]
    simp only [detectMagnitudeOutliers, List.countP_map]
    apply List.countP_mono_left
    intro p _ h2
    exact gtB_mono _ t1 t2 ht h2
  · intro hr
    have hsub : (findNeighbors { cfg with spatialRadius := r1 } target data).Sublist
        (findNeighbors { cfg with spatialRadius := r2 } target data) := by
      apply List.monotone_filter_right
      intro a ha
      simp only [neighborPred, decide_eq_true_eq] at ha ⊢
      exact ⟨ha.1, le_trans ha.2 hr⟩
    exact ⟨hsub, hsub.length_le⟩

/-- C9 witness: the two monotonicity statements instantiated at thresholds
1 ≤ 2 and radii 1 ≤ 2 on a concrete dataset. -/
theorem c9_monotonicity_witness :
    ((1 : ℝ) ≤ 2) ∧
    ((detectMagnitudeOutliers { cfgOn with zScoreThreshold := 2 } [obsP 5, obsP 5]).filter
        (·.isOutlier)).length ≤
      ((detectMagnitudeOutliers { cfgOn with zScoreThreshold := 1 } [obsP 5, obsP 5]).filter
        (·.isOutlier)).length ∧
    (findNeighbors { cfgOn with spatialRadius := 1 } (obsP 5) [obsP 5, obsP 5]).Sublist
      (findNeighbors { cfgOn with spatialRadius := 2 } (obsP 5) [obsP 5, obsP 5]) :=
  ⟨by norm_num,
    (c9_monotonicity cfgOn [obsP 5, obsP 5] 1 2 1 2 (obsP 5)).1 (by norm_num),
    ((c9_monotonicity cfgOn [obsP 5, obsP 5] 1 2 1 2 (obsP 5)).2 (by norm_num)).1⟩

/-! ### Structural lemmas about the pipeline -/

lemma validateCandidate_point (cfg : DetectionConfig) (data : List ClimateData)
    (c : ScoredPoint) : (validateCandidate cfg data c).point = c.point := by
  unfold validateCandidate
  split <;> rfl

lemma validateCandidate_index (cfg : DetectionConfig) (data : List ClimateData)
    (c : ScoredPoint) : (validateCandidate cfg data c).index = c.index := by
  unfold validateCandidate
  split <;> rfl

lemma runDetection_ok_eq (cfg : DetectionConfig) (data : List ClimateData)
    (res : List Anomaly) (h : runDetection cfg data = .ok res) :
    res = (((detectMagnitudeOutliers cfg data).filter (·.isOutlier)).map
      (validateCandidate cfg data)).mergeSort
        fun a b => decide (b.confidence ≤ a.confidence) := by
  unfold runDetection at h
  split at h
  · cases h
  · cases h
    rfl

lemma mem_runDetection_ok (cfg : DetectionConfig) (data : List ClimateData)
    (res : List Anomaly) (a : Anomaly) (h : runDetection cfg data = .ok res)
    (ha : a ∈ res) :
    ∃ c ∈ (detectMagnitudeOutliers cfg data).filter (·.isOutlier),
      a = validateCandidate cfg data c := by
  rw [runDetection_ok_eq cfg data res h, List.mem_mergeSort] at ha
  rcases List.mem_map.1 ha with ⟨c, hc, rfl⟩
  exact ⟨c, hc, rfl⟩

/-! ### Bounds on the cosine similarity -/

lemma cosine_sim_bounds (x1 x2 y1 y2 : ℝ)
    (hx : Real.sqrt (x1 * x1 + x2 * x2) ≠ 0)
    (hy : Real.sqrt (y1 * y1 + y2 * y2) ≠ 0) :
    -1 ≤ (x1 * y1 + x2 * y2) /
        (Real.sqrt (x1 * x1 + x2 * x2) * Real.sqrt (y1 * y1 + y2 * y2)) ∧
      (x1 * y1 + x2 * y2) /
        (Real.sqrt (x1 * x1 + x2 * x2) * Real.sqrt (y1 * y1 + y2 * y2)) ≤ 1 := by
  have hxnn : (0 : ℝ) ≤ x1 * x1 + x2 * x2 := by nlinarith [sq_nonneg x1, sq_nonneg x2]
  have hynn : (0 : ℝ) ≤ y1 * y1 + y2 * y2 := by nlinarith [sq_nonneg y1, sq_nonneg y2]
  have hxpos : 0 < Real.sqrt (x1 * x1 + x2 * x2) :=
    lt_of_le_of_ne (Real.sqrt_nonneg _) (Ne.symm hx)
  have hypos : 0 < Real.sqrt (y1 * y1 + y2 * y2) :=
    lt_of_le_of_ne (Real.sqrt_nonneg _) (Ne.symm hy)
  have hprod : 0 < Real.sqrt (x1 * x1 + x2 * x2) * Real.sqrt (y1 * y1 + y2 * y2) :=
    mul_pos hxpos hypos
  have hcs : (x1 * y1 + x2 * y2) ^ 2 ≤ (x1 * x1 + x2 * x2) * (y1 * y1 + y2 * y2) := by
    nlinarith [sq_nonneg (x1 * y2 - x2 * y1)]
  have habs : |x1 * y1 + x2 * y2| ≤
      Real.sqrt (x1 * x1 + x2 * x2) * Real.sqrt (y1 * y1 + y2 * y2) := by
    rw [← Real.sqrt_mul hxnn, ← Real.sqrt_sq_eq_abs]
    exact Real.sqrt_le_sqrt hcs
  obtain ⟨hlo, hhi⟩ := abs_le.1 habs
  constructor
  · rw [le_div_iff₀ hprod]
    linarith
  · rw [div_le_one hprod]
    exact hhi

lemma calcDC_few (cfg : DetectionConfig) (t : ClimateData) (ns : List ClimateData)
    (h : ns.length < cfg.minimumNeighbors) :
    calculateDirectionalConsistency cfg t ns = ⟨0, false⟩ := by
  unfold calculateDirectionalConsistency
  rw [if_pos h]

lemma consistency_bounds (cfg : DetectionConfig) (t : ClimateData)
    (ns : List ClimateData) :
    -1 ≤ (calculateDirectionalConsistency cfg t ns).consistency ∧
    (calculateDirectionalConsistency cfg t ns).consistency ≤ 1 ∧
    ((calculateDirectionalConsistency cfg t ns).isCoherent = true →
      (0.5 : ℝ) < (calculateDirectionalConsistency cfg t ns).consistency) ∧
    ((calculateDirectionalConsistency cfg t ns).isCoherent = false →
      (calculateDirectionalConsistency cfg t ns).consistency ≤ (0.5 : ℝ)) := by
  simp only [calculateDirectionalConsistency]
  split
  · norm_num
  · split
    · norm_num
    · rename_i hguard
      push_neg at hguard
      have hb := cosine_sim_bounds
        (convertWindToVector t.ws10m t.wd10m).1 (convertWindToVector t.ws10m t.wd10m).2
        ((ns.map fun n => (convertWindToVector n.ws10m n.wd10m).1).sum / ns.length)
        ((ns.map fun n => (convertWindToVector n.ws10m n.wd10m).2).sum / ns.length)
        hguard.1 hguard.2
      refine ⟨hb.1, hb.2, ?_, ?_⟩
      · intro hcoh
        simpa using of_decide_eq_true hcoh
      · intro hncoh
        have := of_decide_eq_false hncoh
        simpa using le_of_not_lt (by simpa using this)

/-! ### C4 -/

/-- C4: every result of a run has confidence in [0.2, 1] when
directional-consistency checking is enabled and exactly 0.7 when it is
disabled; confidence is always strictly positive; and a non-null
directional-consistency value always lies in [-1, 1]. -/
theorem c4_confidence_invariants (cfg : DetectionConfig) (data : List ClimateData)
    (res : List Anomaly) (a : Anomaly) (h : runDetection cfg data = .ok res)
    (ha : a ∈ res) :
    (cfg.enableDirectionalConsistency = true →
      (0.2 : ℝ) ≤ a.confidence ∧ a.confidence ≤ 1) ∧
    (cfg.enableDirectionalConsistency = false → a.confidence = 0.7) ∧
    0 < a.confidence ∧
    (∀ c : ℝ, a.directionalConsistency = some c → -1 ≤ c ∧ c ≤ 1) := by
  rcases mem_runDetection_ok cfg data res a h ha with ⟨cand, _, rfl⟩
  unfold validateCandidate
  split
  · rename_i hen
    obtain ⟨hb1, hb2, hco, hnco⟩ :=
      consistency_bounds cfg cand.point (findNeighbors cfg cand.point data)
    dsimp only
    set out := calculateDirectionalConsistency cfg cand.point
      (findNeighbors cfg cand.point data) with hout
    have hconf : (0.2 : ℝ) ≤ (if out.isCoherent then 0.8 + out.consistency * 0.2
        else 0.3 - out.consistency * 0.2) ∧
        (if out.isCoherent then 0.8 + out.consistency * 0.2
        else 0.3 - out.consistency * 0.2) ≤ 1 := by
      cases hic : out.isCoherent with
      | true =>
        have hgt := hco hic
        rw [if_pos rfl]
        constructor <;> nlinarith
      | false =>
        have hle := hnco hic
        rw [if_neg Bool.false_ne_true]
        constructor <;> nlinarith
    refine ⟨fun _ => hconf, fun hdis => ?_, by nlinarith [hconf.1], ?_⟩
    · rw [hen] at hdis
      cases hdis
    · intro c hc
      have : out.consistency = c := by
        simpa using hc
      rw [← this]
      exact ⟨hb1, hb2⟩
  · rename_i hen
    dsimp only
    refine ⟨fun htrue => ?_, fun _ => rfl, by norm_num, ?_⟩
    · exact absurd htrue hen
    · intro c hc
      cases hc

/-! ### C7 -/

/-- C7: with directional-consistency checking enabled, a candidate whose
neighbor list is shorter than the configured minimum receives
consistency 0, coherent false, a false-anomaly verdict, and confidence
exactly 0.3. -/
theorem c7_insufficient_neighbors (cfg : DetectionConfig) (data : List ClimateData)
    (res : List Anomaly) (a : Anomaly)
    (hen : cfg.enableDirectionalConsistency = true)
    (h : runDetection cfg data = .ok res) (ha : a ∈ res)
    (hfew : (findNeighbors cfg a.point data).length < cfg.minimumNeighbors) :
    a.directionalConsistency = some 0 ∧ a.isDirectionallyCoherent = some false ∧
    a.isTrueAnomaly = false ∧ a.confidence = 0.3 := by
  rcases mem_runDetection_ok cfg data res a h ha with ⟨cand, _, rfl⟩
  rw [validateCandidate_point] at hfew
  unfold validateCandidate
  rw [if_pos hen, calcDC_few cfg cand.point _ hfew]
  refine ⟨rfl, rfl, rfl, ?_⟩
  show (if (false : Bool) then (0.8 : ℝ) + 0 * 0.2 else 0.3 - 0 * 0.2) = 0.3
  norm_num

/-! ### C5 -/

lemma confLe_trans (a b c : Anomaly)
    (hab : decide (b.confidence ≤ a.confidence) = true)
    (hbc : decide (c.confidence ≤ b.confidence) = true) :
    decide (c.confidence ≤ a.confidence) = true := by
  simp only [decide_eq_true_eq] at hab hbc ⊢
  exact le_trans hbc hab

lemma confLe_total (a b : Anomaly) :
    (decide (b.confidence ≤ a.confidence) ||
      decide (a.confidence ≤ b.confidence)) = true := by
  simp only [Bool.or_eq_true, decide_eq_true_eq]
  exact le_total b.confidence a.confidence

/-- C5: a successful run returns one result for every observation flagged by
the Magnitude Screener and none for any other index (indices are unique),
the list is ordered by confidence descending, and the sort is stable: any
two validated results that appear in candidate order with non-increasing
confidence (ties included) keep that relative order in the output. -/
theorem c5_output_structure (cfg : DetectionConfig) (data : List ClimateData)
    (res : List Anomaly) (h : runDetection cfg data = .ok res) :
    res.Pairwise (fun a b => b.confidence ≤ a.confidence) ∧
    (res.map (·.index)).Nodup ∧
    (∀ i : ℕ, (∃ a ∈ res, a.index = i) ↔
      ∃ sp ∈ detectMagnitudeOutliers cfg data, sp.isOutlier = true ∧ sp.index = i) ∧
    ∀ u v : Anomaly, v.confidence ≤ u.confidence →
      [u, v].Sublist (((detectMagnitudeOutliers cfg data).filter (·.isOutlier)).map
        (validateCandidate cfg data)) →
      [u, v].Sublist res := by
  have hre := runDetection_ok_eq cfg data res h
  subst hre
  refine ⟨?_, ?_, ?_, ?_⟩
  · have hs := @List.sorted_mergeSort Anomaly
      (fun a b => decide (b.confidence ≤ a.confidence))
      confLe_trans confLe_total
      (((detectMagnitudeOutliers cfg data).filter (·.isOutlier)).map
        (validateCandidate cfg data))
    refine hs.imp ?_
    intro a b hab
    simpa using hab
  · have hperm := (List.mergeSort_perm
      (((detectMagnitudeOutliers cfg data).filter (·.isOutlier)).map
        (validateCandidate cfg data))
      fun a b => decide (b.confidence ≤ a.confidence)).map (·.index)
    rw [List.Perm.nodup_iff hperm]
    rw [List.map_map]
    have hmc : ((detectMagnitudeOutliers cfg data).filter (·.isOutlier)).map
        ((·.index) ∘ validateCandidate cfg data) =
        ((detectMagnitudeOutliers cfg data).filter (·.isOutlier)).map (·.index) := by
      refine List.map_congr_left ?_
      intro c _
      exact validateCandidate_index cfg data c
    rw [hmc]
    have hsub : ((detectMagnitudeOutliers cfg data).filter (·.isOutlier)).map
        (·.index) |>.Sublist ((detectMagnitudeOutliers cfg data).map (·.index)) :=
      (List.filter_sublist _).map _
    have hrange : (detectMagnitudeOutliers cfg data).map (·.index) =
        List.range data.length := by
      unfold detectMagnitudeOutliers
      rw [List.map_map]
      have : ((fun sp : ScoredPoint => sp.index) ∘ fun p : ℕ × ClimateData =>
          (⟨p.2, p.1, jsDiv |p.2.prec - precMean data| (precStd data),
            (jsDiv |p.2.prec - precMean data| (precStd data)).gtB
              cfg.zScoreThreshold⟩ : ScoredPoint)) = Prod.fst := by
        funext p
        rfl
      rw [this, List.enum_map_fst]
    rw [hrange] at hsub
    exact hsub.nodup (List.nodup_range data.length)
  · intro i
    constructor
    · rintro ⟨a, ha, rfl⟩
      rw [List.mem_mergeSort] at ha
      rcases List.mem_map.1 ha with ⟨c, hc, rfl⟩
      rcases List.mem_filter.1 hc with ⟨hcs, hout⟩
      exact ⟨c, hcs, hout, (validateCandidate_index cfg data c).symm⟩
    · rintro ⟨sp, hsp, hout, rfl⟩
      refine ⟨validateCandidate cfg data sp, ?_, validateCandidate_index cfg data sp⟩
      rw [List.mem_mergeSort]
      exact List.mem_map_of_mem _ (List.mem_filter.2 ⟨hsp, hout⟩)
  · intro u v huv hsub
    refine List.sublist_mergeSort confLe_trans confLe_total ?_ hsub
    refine List.Pairwise.cons ?_ (List.Pairwise.cons ?_ List.Pairwise.nil)
    · intro b hb
      rw [List.mem_singleton] at hb
      rw [hb]
      exact decide_eq_true huv
    · intro b hb
      exact absurd hb (List.not_mem_nil b)

/-! ### C10 -/

/-- C10: with directional-consistency checking disabled, the neighbor search
still runs for every candidate — each result's `neighbors` field equals the
exact number of dataset records satisfying the neighbor predicate
(coordinates differing from the candidate's, Euclidean distance within the
radius) — while both directional fields are null. -/
theorem c10_disabled_still_counts_neighbors (cfg : DetectionConfig)
    (data : List ClimateData) (res : List Anomaly) (a : Anomaly)
    (hdis : cfg.enableDirectionalConsistency = false)
    (h : runDetection cfg data = .ok res) (ha : a ∈ res) :
    a.neighbors = data.countP (neighborPred cfg a.point) ∧
    a.directionalConsistency = none ∧ a.isDirectionallyCoherent = none := by
  rcases mem_runDetection_ok cfg data res a h ha with ⟨cand, _, rfl⟩
  rw [validateCandidate_point]
  unfold validateCandidate
  rw [if_neg (by rw [hdis]; exact Bool.false_ne_true)]
  refine ⟨?_, rfl, rfl⟩
  show (findNeighbors cfg cand.point data).length = _
  rw [List.countP_eq_length_filter]
  rfl

/-! ### A concrete evaluated scenario: five co-located records, one outlier -/

/-- Five records at the origin with precipitation 0, 0, 0, 0, 5: mean 1,
population standard deviation 2, so the last record's z-score is 2. -/
def data1 : List ClimateData := [obsP 0, obsP 0, obsP 0, obsP 0, obsP 5]

lemma data1_mean : precMean data1 = 1 := by
  norm_num [precMean, data1, obsP]

lemma data1_std : precStd data1 = 2 := by
  have h4 : ((data1.map fun d => (d.prec - precMean data1) ^ 2).sum /
      (data1.length : ℝ)) = 4 := by
    rw [data1_mean]
    norm_num [data1, obsP]
  rw [precStd, h4, show (4 : ℝ) = 2 ^ 2 by norm_num,
    Real.sqrt_sq (by norm_num : (0 : ℝ) ≤ 2)]

lemma data1_enum : data1.enum =
    [(0, obsP 0), (1, obsP 0), (2, obsP 0), (3, obsP 0), (4, obsP 5)] := rfl

lemma data1_scored (cfg : DetectionConfig) (ht : cfg.zScoreThreshold = 1.5) :
    detectMagnitudeOutliers cfg data1 =
      [⟨obsP 0, 0, .fin (1 / 2), false⟩, ⟨obsP 0, 1, .fin (1 / 2), false⟩,
       ⟨obsP 0, 2, .fin (1 / 2), false⟩, ⟨obsP 0, 3, .fin (1 / 2), false⟩,
       ⟨obsP 5, 4, .fin 2, true⟩] := by
  have h01 : |(obsP 0).prec - (1 : ℝ)| = 1 := by
    show |(0 : ℝ) - 1| = 1
    rw [show (0 : ℝ) - 1 = -1 by norm_num, abs_neg, abs_one]
  have h51 : |(obsP 5).prec - (1 : ℝ)| = 4 := by
    show |(5 : ℝ) - 1| = 4
    rw [show (5 : ℝ) - 1 = 4 by norm_num]
    exact abs_of_nonneg (by norm_num)
  have hz0 : jsDiv |(obsP 0).prec - precMean data1| (precStd data1) =
      .fin (1 / 2) := by
    rw [data1_mean, data1_std, h01, jsDiv_of_ne_zero 1 2 (by norm_num)]
  have hz5 : jsDiv |(obsP 5).prec - precMean data1| (precStd data1) = .fin 2 := by
    rw [data1_mean, data1_std, h51, jsDiv_of_ne_zero 4 2 (by norm_num)]
    norm_num
  have hb0 : (JSNum.fin (1 / 2)).gtB cfg.zScoreThreshold = false := by
    rw [ht]
    simp only [JSNum.gtB, decide_eq_false_iff_not]
    norm_num
  have hb5 : (JSNum.fin 2).gtB cfg.zScoreThreshold = true := by
    rw [ht]
    simp only [JSNum.gtB, decide_eq_true_eq]
    norm_num
  unfold detectMagnitudeOutliers
  rw [data1_enum]
  simp only [List.map_cons, List.map_nil]
  simp only [hz0, hz5, hb0, hb5]

lemma data1_candidates (cfg : DetectionConfig) (ht : cfg.zScoreThreshold = 1.5) :
    (detectMagnitudeOutliers cfg data1).filter (·.isOutlier) =
      [⟨obsP 5, 4, .fin 2, true⟩] := by
  rw [data1_scored cfg ht]
  rfl

lemma data1_neighbors (cfg : DetectionConfig) (t : ClimateData)
    (h1 : t.lat = 0) (h2 : t.lon = 0) : findNeighbors cfg t data1 = [] := by
  have hp : ∀ p ∈ data1, neighborPred cfg t p = false := by
    intro p hpm
    have hpc : p.lat = 0 ∧ p.lon = 0 := by
      simp only [data1, List.mem_cons, List.not_mem_nil, or_false] at hpm
      rcases hpm with rfl | rfl | rfl | rfl | rfl <;> exact ⟨rfl, rfl⟩
    unfold neighborPred
    rw [decide_eq_false_iff_not]
    intro hcontra
    exact hcontra.1 ⟨hpc.1.trans h1.symm, hpc.2.trans h2.symm⟩
  rw [findNeighbors, List.filter_eq_nil_iff]
  intro a ha
  rw [hp a ha]
  exact Bool.false_ne_true

/-- The single anomaly produced on `data1` with checking enabled. -/
def anomaly1 : Anomaly :=
  ⟨obsP 5, 4, .fin 2, true, 0, some 0, some false, false, 0.3⟩

/-- The single anomaly produced on `data1` with checking disabled. -/
def anomaly2 : Anomaly :=
  ⟨obsP 5, 4, .fin 2, true, 0, none, none, true, 0.7⟩

lemma data1_validate_on :
    validateCandidate cfgOn data1 ⟨obsP 5, 4, .fin 2, true⟩ = anomaly1 := by
  unfold validateCandidate
  dsimp only
  rw [data1_neighbors cfgOn (obsP 5) rfl rfl,
    calcDC_few cfgOn (obsP 5) [] (by norm_num [cfgOn])]
  norm_num [cfgOn, anomaly1]

lemma data1_validate_off :
    validateCandidate cfgOff data1 ⟨obsP 5, 4, .fin 2, true⟩ = anomaly2 := by
  unfold validateCandidate
  dsimp only
  rw [data1_neighbors cfgOff (obsP 5) rfl rfl,
    if_neg (show ¬cfgOff.enableDirectionalConsistency = true from Bool.false_ne_true)]
  rfl

lemma scenario_on : runDetection cfgOn data1 = .ok [anomaly1] := by
  unfold runDetection
  rw [if_neg (by norm_num [data1])]
  dsimp only
  rw [data1_candidates cfgOn rfl, List.map_cons, List.map_nil, data1_validate_on,
    List.mergeSort_singleton]

lemma scenario_off : runDetection cfgOff data1 = .ok [anomaly2] := by
  unfold runDetection
  rw [if_neg (by norm_num [data1])]
  dsimp only
  rw [data1_candidates cfgOff rfl, List.map_cons, List.map_nil, data1_validate_off,
    List.mergeSort_singleton]

/-- C4 witness: the confidence invariants instantiated on the concrete
enabled-path run over `data1`, whose sole result has confidence 0.3. -/
theorem c4_confidence_invariants_witness :
    (cfgOn.enableDirectionalConsistency = true →
      (0.2 : ℝ) ≤ anomaly1.confidence ∧ anomaly1.confidence ≤ 1) ∧
    (cfgOn.enableDirectionalConsistency = false → anomaly1.confidence = 0.7) ∧
    0 < anomaly1.confidence ∧
    (∀ c : ℝ, anomaly1.directionalConsistency = some c → -1 ≤ c ∧ c ≤ 1) :=
  c4_confidence_invariants cfgOn data1 [anomaly1] anomaly1 scenario_on
    (List.mem_singleton.2 rfl)

/-- C5 witness: the output-structure theorem instantiated on the concrete
run over `data1`, checking index 4 (the flagged record). -/
theorem c5_output_structure_witness :
    ([anomaly1] : List Anomaly).Pairwise (fun a b => b.confidence ≤ a.confidence) ∧
    (([anomaly1] : List Anomaly).map (·.index)).Nodup ∧
    ((∃ a ∈ ([anomaly1] : List Anomaly), a.index = 4) ↔
      ∃ sp ∈ detectMagnitudeOutliers cfgOn data1,
        sp.isOutlier = true ∧ sp.index = 4) ∧
    (anomaly1.confidence ≤ anomaly1.confidence →
      [anomaly1, anomaly1].Sublist (((detectMagnitudeOutliers cfgOn data1).filter
        (·.isOutlier)).map (validateCandidate cfgOn data1)) →
      [anomaly1, anomaly1].Sublist [anomaly1]) := by
  obtain ⟨h1, h2, h3, h4⟩ := c5_output_structure cfgOn data1 [anomaly1] scenario_on
  exact ⟨h1, h2, h3 4, h4 anomaly1 anomaly1⟩

/-- C7 witness: on `data1` the sole candidate has 0 < 3 neighbors and indeed
receives consistency 0, coherent false, a false verdict and confidence
0.3. -/
theorem c7_insufficient_neighbors_witness :
    (findNeighbors cfgOn anomaly1.point data1).length < cfgOn.minimumNeighbors ∧
    (anomaly1.directionalConsistency = some 0 ∧
     anomaly1.isDirectionallyCoherent = some false ∧
     anomaly1.isTrueAnomaly = false ∧ anomaly1.confidence = 0.3) := by
  have hfew : (findNeighbors cfgOn anomaly1.point data1).length <
      cfgOn.minimumNeighbors := by
    rw [show anomaly1.point = obsP 5 from rfl,
      data1_neighbors cfgOn (obsP 5) rfl rfl]
    norm_num [cfgOn]
  exact ⟨hfew, c7_insufficient_neighbors cfgOn data1 [anomaly1] anomaly1 rfl
    scenario_on (List.mem_singleton.2 rfl) hfew⟩

/-- C10 witness: the disabled-path theorem instantiated on the concrete run
over `data1` with `cfgOff`. -/
theorem c10_disabled_still_counts_neighbors_witness :
    cfgOff.enableDirectionalConsistency = false ∧
    (anomaly2.neighbors = data1.countP (neighborPred cfgOff anomaly2.point) ∧
     anomaly2.directionalConsistency = none ∧
     anomaly2.isDirectionallyCoherent = none) :=
  ⟨rfl, c10_disabled_still_counts_neighbors cfgOff data1 [anomaly2] anomaly2 rfl
    scenario_off (List.mem_singleton.2 rfl)⟩
